import Mathlib

/-!
Verification of the devmapper snapshotter configuration loader
(`snapshots/devmapper/config.go`).

The Go file defines a `Config` record loaded from a TOML file:
`LoadConfig` stats the path, parses the TOML document, unmarshals it into
the record, derives `BaseImageSizeBytes` from the human-readable
`BaseImageSize` string (`Config.parse`, via `units.RAMInBytes`), and then
checks required fields (`Config.Validate`, collecting all violations with
`multierror`).

The embedding below translates `LoadConfig`, `Config.parse` and
`Config.Validate` directly from the Go source.  The two library calls whose
implementations are vendored outside the provided sources — the
human-readable size parsing (`units.RAMInBytes` from docker/go-units) and
the TOML unmarshalling (pelletier/go-toml) — are modelled from the
specification's description of their behaviour; those definitions carry a
doc comment starting with `Modelled from the spec:`.

File I/O is shallowly embedded: the outcome of `os.Stat` and of
`toml.LoadFile` are passed to `LoadConfig` as explicit arguments, so that
`LoadConfig` is the pure function of those outcomes that the Go control
flow computes.
-/

deriving instance DecidableEq for Except

namespace Devmapper

/-- Modelled from the spec: a TOML value as far as this config file needs —
the recognized keys hold strings and booleans; other value shapes are kept
abstract as `other`. -/
inductive TomlValue where
  | str (s : String)
  | boolean (b : Bool)
  | other
  deriving DecidableEq

/-- Modelled from the spec: a syntactically valid TOML document, abstracted
to its list of top-level key/value bindings (TOML forbids duplicate keys, and
lookup takes the first binding). -/
abbrev TomlDoc := List (String × TomlValue)

/-- The `Config` struct of the Go source.  `BaseImageSizeBytes` is Go's
`uint64`, embedded as `Nat` (the narrowing is explicit in `uint64OfInt`). -/
structure Config where
  RootPath : String
  PoolName : String
  BaseImageSize : String
  BaseImageSizeBytes : Nat
  AsyncRemove : Bool
  DiscardBlocks : Bool
  deriving DecidableEq

/-- Go's `uint64(x)` conversion of an `int64` value: reduction modulo `2^64`. -/
def uint64OfInt (x : Int) : Nat :=
  (x % (2 ^ 64 : Int)).toNat

/-- Numeric value of a list of decimal digit characters. -/
def digitsVal (cs : List Char) : Nat :=
  cs.foldl (fun acc c => acc * 10 + (c.toNat - 48)) 0

/-- Modelled from the spec: the unit multiplier recognized after the digits
by the size parser (`units.RAMInBytes`, vendored outside the provided
sources).  Binary suffixes Ki/Mi/Gi/Ti are powers of 1024, decimal suffixes
K/M/G/T are powers of 1000, all case-insensitive, with an optional trailing
"B". -/
def sizeSuffixMul (cs : List Char) : Option Nat :=
  match cs.map Char.toLower with
  | [] => some 1
  | ['b'] => some 1
  | ['k'] => some 1000
  | ['k', 'b'] => some 1000
  | ['k', 'i'] => some 1024
  | ['k', 'i', 'b'] => some 1024
  | ['m'] => some (1000 ^ 2)
  | ['m', 'b'] => some (1000 ^ 2)
  | ['m', 'i'] => some (1024 ^ 2)
  | ['m', 'i', 'b'] => some (1024 ^ 2)
  | ['g'] => some (1000 ^ 3)
  | ['g', 'b'] => some (1000 ^ 3)
  | ['g', 'i'] => some (1024 ^ 3)
  | ['g', 'i', 'b'] => some (1024 ^ 3)
  | ['t'] => some (1000 ^ 4)
  | ['t', 'b'] => some (1000 ^ 4)
  | ['t', 'i'] => some (1024 ^ 4)
  | ['t', 'i', 'b'] => some (1024 ^ 4)
  | _ => none

/-- Modelled from the spec: `units.RAMInBytes` (docker/go-units, vendored
outside the provided sources).  Accepts a non-empty run of decimal digits
optionally followed by a unit suffix as in `sizeSuffixMul`; returns the byte
count as Go's `int64`, or fails.  Anything else (including the empty string)
is a parse failure. -/
def RAMInBytes (s : String) : Option Int :=
  if (s.toList.takeWhile Char.isDigit).isEmpty then none
  else
    (sizeSuffixMul (s.toList.dropWhile Char.isDigit)).map
      (fun mul => ((digitsVal (s.toList.takeWhile Char.isDigit) * mul : Nat) : Int))

/-- The error shapes `LoadConfig` can return, one constructor per `return
nil, ...` site of the Go source:
`errNotExist` is `os.ErrNotExist`; `statError` is the verbatim non-not-exist
`os.Stat` error; `tomlError` is the wrapped `toml.LoadFile` error;
`unmarshalError` is the wrapped `file.Unmarshal` error; `sizeParseError` is
the wrapped `units.RAMInBytes` error carrying the offending size string;
`validationError` is the `multierror` aggregate carrying every message. -/
inductive LoadError where
  | errNotExist
  | statError (e : String)
  | tomlError (e : String) (path : String)
  | unmarshalError (e : String)
  | sizeParseError (size : String)
  | validationError (msgs : List String)
  deriving DecidableEq

/-- Outcome of `os.Stat(path)`: success, a not-exist error, or some other
file-system error carrying its message. -/
inductive StatRes where
  | ok
  | notExist
  | err (e : String)
  deriving DecidableEq

/-- First binding of a key in a document. -/
def lookupKey (doc : TomlDoc) (k : String) : Option TomlValue :=
  ((List.find? (fun p => p.1 == k) doc)).map (fun p => p.2)

/-- Modelled from the spec: unmarshalling a string-typed struct field from
the document — absent keys leave the Go zero value `""`, a string binding is
taken as is, any other binding is a type error. -/
def getStringField (doc : TomlDoc) (k : String) : Except String String :=
  match lookupKey doc k with
  | none => .ok ""
  | some (.str s) => .ok s
  | some _ => .error ("cannot unmarshal field " ++ k)

/-- Modelled from the spec: unmarshalling a boolean-typed struct field from
the document — absent keys leave the Go zero value `false`, a boolean
binding is taken as is, any other binding is a type error. -/
def getBoolField (doc : TomlDoc) (k : String) : Except String Bool :=
  match lookupKey doc k with
  | none => .ok false
  | some (.boolean b) => .ok b
  | some _ => .error ("cannot unmarshal field " ++ k)

/-- Modelled from the spec: `file.Unmarshal(&config)` — each tagged field is
populated from its key, unknown keys are ignored, and `BaseImageSizeBytes`
(tag `toml:"-"`) keeps its zero value. -/
def unmarshal (doc : TomlDoc) : Except String Config :=
  match getStringField doc "root_path", getStringField doc "pool_name",
        getStringField doc "base_image_size", getBoolField doc "async_remove",
        getBoolField doc "discard_blocks" with
  | .ok rp, .ok pn, .ok bis, .ok ar, .ok db =>
      .ok { RootPath := rp, PoolName := pn, BaseImageSize := bis,
            BaseImageSizeBytes := 0, AsyncRemove := ar, DiscardBlocks := db }
  | .error e, _, _, _, _ => .error e
  | _, .error e, _, _, _ => .error e
  | _, _, .error e, _, _ => .error e
  | _, _, _, .error e, _ => .error e
  | _, _, _, _, .error e => .error e

/-- `Config.parse` of the Go source: derive `BaseImageSizeBytes` from
`BaseImageSize` via `units.RAMInBytes`, wrapping a failure with the
offending string. -/
def Config.parse (c : Config) : Except LoadError Config :=
  match RAMInBytes c.BaseImageSize with
  | none => .error (.sizeParseError c.BaseImageSize)
  | some n => .ok { c with BaseImageSizeBytes := uint64OfInt n }

/-- The message list accumulated by `Config.Validate` via
`multierror.Append`, in source order: pool name, root path, base image
size. -/
def Config.validateMsgs (c : Config) : List String :=
  (if c.PoolName = "" then ["pool_name is required"] else []) ++
  (if c.RootPath = "" then ["root_path is required"] else []) ++
  (if c.BaseImageSize = "" then ["base_image_size is required"] else [])

/-- `Config.Validate` of the Go source: `result.ErrorOrNil()` — `none` when
no violation was collected, otherwise the aggregated message list. -/
def Config.Validate (c : Config) : Option (List String) :=
  if c.validateMsgs = [] then none else some c.validateMsgs

/-- `LoadConfig` of the Go source, as a pure function of the outcome of its
two I/O steps: `stat` is the outcome of `os.Stat(path)` and `tomlLoad` the
outcome of `toml.LoadFile(path)` (the parsed document, or the parser's
error message).  The step order is exactly the Go control flow: stat, TOML
load, unmarshal, `parse`, `Validate`. -/
def LoadConfig (path : String) (stat : StatRes) (tomlLoad : Except String TomlDoc) :
    Except LoadError Config :=
  match stat with
  | .notExist => .error .errNotExist
  | .err e => .error (.statError e)
  | .ok =>
    match tomlLoad with
    | .error e => .error (.tomlError e path)
    | .ok doc =>
      match unmarshal doc with
      | .error e => .error (.unmarshalError e)
      | .ok config =>
        match config.parse with
        | .error e => .error e
        | .ok config2 =>
          match config2.Validate with
          | some msgs => .error (.validationError msgs)
          | none => .ok config2

/-- The five top-level keys carrying a `toml` tag on the `Config` struct. -/
def recognizedKeys : List String :=
  ["root_path", "pool_name", "base_image_size", "async_remove", "discard_blocks"]

/-- A concrete well-formed document with all three required fields. -/
def docValid : TomlDoc :=
  [("root_path", .str "/var/lib/containerd/devmapper"),
   ("pool_name", .str "devpool"),
   ("base_image_size", .str "8GiB")]

/-- A concrete document whose `base_image_size` value is the empty string. -/
def docEmptySize : TomlDoc :=
  [("root_path", .str "/var/lib/containerd/devmapper"),
   ("pool_name", .str "devpool"),
   ("base_image_size", .str "")]

/-- A concrete document with `async_remove` present (`true`) and
`discard_blocks` absent. -/
def docFlags : TomlDoc :=
  [("root_path", .str "/var/lib/containerd/devmapper"),
   ("pool_name", .str "devpool"),
   ("base_image_size", .str "64"),
   ("async_remove", .boolean true)]

/-- The record `LoadConfig` produces on `docFlags`. -/
def cFlagsOut : Config :=
  { RootPath := "/var/lib/containerd/devmapper", PoolName := "devpool",
    BaseImageSize := "64", BaseImageSizeBytes := 64,
    AsyncRemove := true, DiscardBlocks := false }

/-! Theorems about the configuration loader. -/

/-- C2: The size-string-to-bytes conversion accepts plain integers as byte
counts, binary suffixes Ki/Mi/Gi/Ti as powers of 1024, and decimal suffixes
K/M/G/T as powers of 1000, case-insensitively with an optional trailing "B";
in particular "0" parses to 0, "1024" to 1024, "1KiB" to 1024, "32GB" to
32000000000, and "32GiB" to 34359738368. -/
theorem ramInBytes_examples :
    RAMInBytes "0" = some 0 ∧
    RAMInBytes "1024" = some 1024 ∧
    RAMInBytes "1KiB" = some 1024 ∧
    RAMInBytes "1kib" = some 1024 ∧
    RAMInBytes "32GB" = some 32000000000 ∧
    RAMInBytes "32gB" = some 32000000000 ∧
    RAMInBytes "32GiB" = some 34359738368 ∧
    RAMInBytes "32gib" = some 34359738368 ∧
    RAMInBytes "2K" = some 2000 ∧
    RAMInBytes "2Ki" = some 2048 ∧
    RAMInBytes "3M" = some 3000000 ∧
    RAMInBytes "3MiB" = some 3145728 ∧
    RAMInBytes "4T" = some 4000000000000 ∧
    RAMInBytes "4TiB" = some 4398046511104 ∧
    RAMInBytes "7GB" = some 7000000000 ∧
    RAMInBytes "7Gi" = some 7516192768 := by
  decide

/-- C4: On a nonexistent path, `LoadConfig` returns the not-found error
kind (`os.ErrNotExist`), whatever the TOML load would have produced, and
that kind is distinct from every other failure kind — in particular it is
never a size-parse, TOML-parse, unmarshal or validation failure. -/
theorem load_notFound_kind (path : String) (tomlLoad : Except String TomlDoc) :
    LoadConfig path .notExist tomlLoad = .error .errNotExist ∧
    (∀ s, LoadError.errNotExist ≠ LoadError.sizeParseError s) ∧
    (∀ e p, LoadError.errNotExist ≠ LoadError.tomlError e p) ∧
    (∀ e, LoadError.errNotExist ≠ LoadError.unmarshalError e) ∧
    (∀ m, LoadError.errNotExist ≠ LoadError.validationError m) ∧
    (∀ e, LoadError.errNotExist ≠ LoadError.statError e) := by
  refine ⟨rfl, ?_, ?_, ?_, ?_, ?_⟩ <;> intros <;> intro h <;> cases h

/-- C7: When the existence probe fails with an error other than
non-existence, `LoadConfig` returns that error verbatim (the `statError`
kind carries the unmodified message), whatever the TOML load would have
produced. -/
theorem load_stat_error_verbatim (path : String) (e : String)
    (tomlLoad : Except String TomlDoc) :
    LoadConfig path (.err e) tomlLoad = .error (.statError e) := rfl

/-- C3: `Validate`'s message list contains exactly one entry per missing
required field (`pool_name`, `root_path`, `base_image_size`), nothing else,
and `Validate` succeeds iff all three fields are non-empty. -/
theorem validate_messages (c : Config) :
    c.validateMsgs.count "pool_name is required" =
      (if c.PoolName = "" then 1 else 0) ∧
    c.validateMsgs.count "root_path is required" =
      (if c.RootPath = "" then 1 else 0) ∧
    c.validateMsgs.count "base_image_size is required" =
      (if c.BaseImageSize = "" then 1 else 0) ∧
    c.validateMsgs.length =
      (if c.PoolName = "" then 1 else 0) + (if c.RootPath = "" then 1 else 0) +
        (if c.BaseImageSize = "" then 1 else 0) ∧
    (c.Validate = none ↔ c.PoolName ≠ "" ∧ c.RootPath ≠ "" ∧ c.BaseImageSize ≠ "") := by
  unfold Config.Validate Config.validateMsgs
  by_cases h1 : c.PoolName = "" <;> by_cases h2 : c.RootPath = "" <;>
    by_cases h3 : c.BaseImageSize = "" <;>
    simp [h1, h2, h3, List.count_cons, List.count_nil]

/-- C10: The standalone `Validate` checks only that the three required
string fields are non-empty; it succeeds for any values of
`BaseImageSizeBytes` and even when `BaseImageSize` is not parseable. -/
theorem validate_checks_only_emptiness (c : Config)
    (h1 : c.RootPath ≠ "") (h2 : c.PoolName ≠ "") (h3 : c.BaseImageSize ≠ "") :
    c.Validate = none := by
  unfold Config.Validate Config.validateMsgs
  simp [h1, h2, h3]

/-- Witness for C10: a record whose size string "abc" is not parseable and
whose byte count is arbitrary still validates. -/
theorem validate_checks_only_emptiness_witness :
    RAMInBytes "abc" = none ∧
    Config.Validate { RootPath := "/var/lib/containerd/devmapper",
                      PoolName := "devpool", BaseImageSize := "abc",
                      BaseImageSizeBytes := 987654321, AsyncRemove := true,
                      DiscardBlocks := true } = none :=
  ⟨by decide, validate_checks_only_emptiness _ (by decide) (by decide) (by decide)⟩

/-- C1: For every well-formed document whose three required fields are
non-empty and whose size string parses, `LoadConfig` succeeds, and the
returned record's `BaseImageSizeBytes` is exactly the independently computed
parse of the size string (narrowed to `uint64` as the source does). -/
theorem load_success_derived_size (path : String) (doc : TomlDoc) (c : Config)
    (n : Int) (hu : unmarshal doc = .ok c)
    (hpn : c.PoolName ≠ "") (hrp : c.RootPath ≠ "") (hbs : c.BaseImageSize ≠ "")
    (hn : RAMInBytes c.BaseImageSize = some n) :
    LoadConfig path .ok (.ok doc) = .ok { c with BaseImageSizeBytes := uint64OfInt n } ∧
    Config.BaseImageSizeBytes { c with BaseImageSizeBytes := uint64OfInt n } =
      uint64OfInt n := by
  have hv : Config.Validate { c with BaseImageSizeBytes := uint64OfInt n } = none := by
    unfold Config.Validate Config.validateMsgs
    simp [hpn, hrp, hbs]
  refine ⟨?_, rfl⟩
  simp only [LoadConfig, hu, Config.parse, hn, hv]

/-- Witness for C1 on a concrete valid document (8GiB base image size). -/
theorem load_success_derived_size_witness :
    LoadConfig "/etc/containerd/devmapper.toml" .ok (.ok docValid) =
      .ok { RootPath := "/var/lib/containerd/devmapper", PoolName := "devpool",
            BaseImageSize := "8GiB", BaseImageSizeBytes := uint64OfInt 8589934592,
            AsyncRemove := false, DiscardBlocks := false } ∧
    Config.BaseImageSizeBytes
        { RootPath := "/var/lib/containerd/devmapper", PoolName := "devpool",
          BaseImageSize := "8GiB", BaseImageSizeBytes := uint64OfInt 8589934592,
          AsyncRemove := false, DiscardBlocks := false } = uint64OfInt 8589934592 :=
  load_success_derived_size "/etc/containerd/devmapper.toml" docValid
    { RootPath := "/var/lib/containerd/devmapper", PoolName := "devpool",
      BaseImageSize := "8GiB", BaseImageSizeBytes := 0,
      AsyncRemove := false, DiscardBlocks := false }
    8589934592 (by decide) (by decide) (by decide) (by decide) (by decide)

/-- C5: On a well-formed document whose `base_image_size` is the empty
string, `LoadConfig` fails at the size-parsing step (which the source runs
before validation), with the size-parse kind carrying the empty string —
and that kind is distinct from the aggregated validation kind. -/
theorem load_empty_size_is_parse_error (path : String) (doc : TomlDoc) (c : Config)
    (hu : unmarshal doc = .ok c) (hbs : c.BaseImageSize = "") :
    LoadConfig path .ok (.ok doc) = .error (.sizeParseError "") ∧
    (∀ m, LoadError.sizeParseError "" ≠ LoadError.validationError m) := by
  have h0 : RAMInBytes "" = none := rfl
  refine ⟨?_, ?_⟩
  · simp only [LoadConfig, hu, Config.parse, hbs, h0]
  · intro m h
    cases h

/-- Witness for C5: a concrete document binding `base_image_size` to `""`. -/
theorem load_empty_size_is_parse_error_witness :
    LoadConfig "/etc/containerd/devmapper.toml" .ok (.ok docEmptySize) =
      .error (.sizeParseError "") ∧
    (∀ m, LoadError.sizeParseError "" ≠ LoadError.validationError m) :=
  load_empty_size_is_parse_error "/etc/containerd/devmapper.toml" docEmptySize
    { RootPath := "/var/lib/containerd/devmapper", PoolName := "devpool",
      BaseImageSize := "", BaseImageSizeBytes := 0,
      AsyncRemove := false, DiscardBlocks := false }
    (by decide) rfl

/-- C6: Every size string the parser accepts yields a non-negative integer,
and `Config.parse` stores exactly that integer narrowed to `uint64` in
`BaseImageSizeBytes`. -/
theorem ramInBytes_nonneg_narrowed (c : Config) (n : Int)
    (hn : RAMInBytes c.BaseImageSize = some n) :
    0 ≤ n ∧ Config.parse c = .ok { c with BaseImageSizeBytes := uint64OfInt n } := by
  constructor
  · unfold RAMInBytes at hn
    split at hn
    · exact absurd hn (by simp)
    · rcases Option.map_eq_some'.mp hn with ⟨mul, hmul, hval⟩
      rw [← hval]
      exact Int.natCast_nonneg _
  · unfold Config.parse
    rw [hn]

/-- Witness for C6 at the concrete size string "1KiB". -/
theorem ramInBytes_nonneg_narrowed_witness :
    (0 : Int) ≤ 1024 ∧
    Config.parse { RootPath := "/var/lib/containerd/devmapper",
                   PoolName := "devpool", BaseImageSize := "1KiB",
                   BaseImageSizeBytes := 0, AsyncRemove := false,
                   DiscardBlocks := false } =
      .ok { RootPath := "/var/lib/containerd/devmapper", PoolName := "devpool",
            BaseImageSize := "1KiB", BaseImageSizeBytes := uint64OfInt 1024,
            AsyncRemove := false, DiscardBlocks := false } :=
  ramInBytes_nonneg_narrowed
    { RootPath := "/var/lib/containerd/devmapper", PoolName := "devpool",
      BaseImageSize := "1KiB", BaseImageSizeBytes := 0,
      AsyncRemove := false, DiscardBlocks := false }
    1024 (by decide)

/-- A successful `unmarshal` populated each tagged field from its key. -/
theorem unmarshal_ok_fields (doc : TomlDoc) (c : Config) (h : unmarshal doc = .ok c) :
    getStringField doc "root_path" = .ok c.RootPath ∧
    getStringField doc "pool_name" = .ok c.PoolName ∧
    getStringField doc "base_image_size" = .ok c.BaseImageSize ∧
    getBoolField doc "async_remove" = .ok c.AsyncRemove ∧
    getBoolField doc "discard_blocks" = .ok c.DiscardBlocks := by
  unfold unmarshal at h
  cases h1 : getStringField doc "root_path" <;> rw [h1] at h <;>
  cases h2 : getStringField doc "pool_name" <;> rw [h2] at h <;>
  cases h3 : getStringField doc "base_image_size" <;> rw [h3] at h <;>
  cases h4 : getBoolField doc "async_remove" <;> rw [h4] at h <;>
  cases h5 : getBoolField doc "discard_blocks" <;> rw [h5] at h <;>
    first
    | exact Except.noConfusion h
    | (injection h with h
       subst h
       exact ⟨rfl, rfl, rfl, rfl, rfl⟩)

/-- A successful `LoadConfig` returns the unmarshalled record with only its
`BaseImageSizeBytes` field replaced by the narrowed parse of the size
string. -/
theorem loadConfig_ok_shape (path : String) (doc : TomlDoc) (c : Config)
    (h : LoadConfig path .ok (.ok doc) = .ok c) :
    ∃ n : Int,
      getStringField doc "root_path" = .ok c.RootPath ∧
      getStringField doc "pool_name" = .ok c.PoolName ∧
      getStringField doc "base_image_size" = .ok c.BaseImageSize ∧
      getBoolField doc "async_remove" = .ok c.AsyncRemove ∧
      getBoolField doc "discard_blocks" = .ok c.DiscardBlocks ∧
      RAMInBytes c.BaseImageSize = some n ∧
      c.BaseImageSizeBytes = uint64OfInt n := by
  simp only [LoadConfig] at h
  cases hu : unmarshal doc with
  | error e =>
    simp only [hu] at h
    exact Except.noConfusion h
  | ok c0 =>
    simp only [hu, Config.parse] at h
    cases hp : RAMInBytes c0.BaseImageSize with
    | none =>
      simp only [hp] at h
      exact Except.noConfusion h
    | some n =>
      simp only [hp] at h
      cases hv : Config.Validate { c0 with BaseImageSizeBytes := uint64OfInt n } with
      | some msgs =>
        simp only [hv] at h
        exact Except.noConfusion h
      | none =>
        simp only [hv, Except.ok.injEq] at h
        subst h
        obtain ⟨f1, f2, f3, f4, f5⟩ := unmarshal_ok_fields doc c0 hu
        exact ⟨n, f1, f2, f3, f4, f5, hp, rfl⟩

/-- C8: In a successfully loaded record, each boolean flag is `false` when
its key is absent from the document and equals the document's value when the
key is present. -/
theorem flags_default_passthrough (path : String) (doc : TomlDoc) (c : Config)
    (a d : Bool) (h : LoadConfig path .ok (.ok doc) = .ok c)
    (ha : (lookupKey doc "async_remove" = none ∧ a = false) ∨
          lookupKey doc "async_remove" = some (.boolean a))
    (hd : (lookupKey doc "discard_blocks" = none ∧ d = false) ∨
          lookupKey doc "discard_blocks" = some (.boolean d)) :
    c.AsyncRemove = a ∧ c.DiscardBlocks = d := by
  obtain ⟨n, -, -, -, f4, f5, -, -⟩ := loadConfig_ok_shape path doc c h
  unfold getBoolField at f4 f5
  constructor
  · rcases ha with ⟨hnone, rfl⟩ | hsome
    · rw [hnone] at f4
      injection f4 with f4
      exact f4.symm
    · rw [hsome] at f4
      injection f4 with f4
      exact f4.symm
  · rcases hd with ⟨hnone, rfl⟩ | hsome
    · rw [hnone] at f5
      injection f5 with f5
      exact f5.symm
    · rw [hsome] at f5
      injection f5 with f5
      exact f5.symm

/-- Witness for C8 on a concrete document with `async_remove = true` present
and `discard_blocks` absent. -/
theorem flags_default_passthrough_witness :
    Config.AsyncRemove cFlagsOut = true ∧ Config.DiscardBlocks cFlagsOut = false :=
  flags_default_passthrough "/etc/containerd/devmapper.toml" docFlags cFlagsOut
    true false (by decide) (by decide) (by decide)

/-- Filtering a document to the recognized keys does not change the binding
any recognized key is looked up to. -/
theorem lookupKey_filter (doc : TomlDoc) (k : String) (hk : k ∈ recognizedKeys) :
    lookupKey (List.filter (fun p => decide (p.1 ∈ recognizedKeys)) doc) k =
      lookupKey doc k := by
  induction doc with
  | nil => rfl
  | cons hd tl ih =>
    by_cases he : (hd.1 == k) = true
    · have h1 : hd.1 = k := by simpa using he
      have hr : (decide (hd.1 ∈ recognizedKeys)) = true := by
        rw [h1]
        simpa using hk
      rw [List.filter_cons_of_pos (by exact hr)]
      unfold lookupKey
      rw [List.find?_cons_of_pos _ (by exact he), List.find?_cons_of_pos _ (by exact he)]
    · by_cases hr : (decide (hd.1 ∈ recognizedKeys)) = true
      · rw [List.filter_cons_of_pos (by exact hr)]
        unfold lookupKey
        rw [List.find?_cons_of_neg _ (by exact he), List.find?_cons_of_neg _ (by exact he)]
        exact ih
      · rw [List.filter_cons_of_neg (by exact hr)]
        unfold lookupKey
        rw [List.find?_cons_of_neg _ (by exact he)]
        exact ih

/-- Filtering to the recognized keys does not change a string field. -/
theorem getStringField_filter (doc : TomlDoc) (k : String) (hk : k ∈ recognizedKeys) :
    getStringField (List.filter (fun p => decide (p.1 ∈ recognizedKeys)) doc) k =
      getStringField doc k := by
  unfold getStringField
  rw [lookupKey_filter doc k hk]

/-- Filtering to the recognized keys does not change a boolean field. -/
theorem getBoolField_filter (doc : TomlDoc) (k : String) (hk : k ∈ recognizedKeys) :
    getBoolField (List.filter (fun p => decide (p.1 ∈ recognizedKeys)) doc) k =
      getBoolField doc k := by
  unfold getBoolField
  rw [lookupKey_filter doc k hk]

/-- Unmarshalling ignores every binding whose key is not recognized. -/
theorem unmarshal_filter (doc : TomlDoc) :
    unmarshal (List.filter (fun p => decide (p.1 ∈ recognizedKeys)) doc) =
      unmarshal doc := by
  unfold unmarshal
  rw [getStringField_filter doc "root_path" (by decide),
      getStringField_filter doc "pool_name" (by decide),
      getStringField_filter doc "base_image_size" (by decide),
      getBoolField_filter doc "async_remove" (by decide),
      getBoolField_filter doc "discard_blocks" (by decide)]

/-- C9: Top-level keys other than the five recognized ones are ignored:
`LoadConfig` behaves on any syntactically valid document exactly as it does
on the document restricted to the recognized keys, so unknown keys never
cause a failure and the recognized fields are populated as if the unknown
keys were absent. -/
theorem load_ignores_unknown_keys (path : String) (stat : StatRes) (doc : TomlDoc) :
    LoadConfig path stat (.ok doc) =
      LoadConfig path stat
        (.ok (List.filter (fun p => decide (p.1 ∈ recognizedKeys)) doc)) := by
  cases stat with
  | ok =>
    simp only [LoadConfig]
    rw [unmarshal_filter]
  | notExist => rfl
  | err e => rfl

end Devmapper
